import Mathlib

/-!
Shallow embedding of the core of the `chalk` trait-resolution IR:
the `ChalkIr` interner (chalk-ir/src/interner.rs), the coinductive
goal classification (chalk-solve/src/coinductive_goal.rs), and the
Zip structural matcher (chalk-rust/src/zip.rs).
-/

set_option maxHeartbeats 1000000

/-! ## ChalkIr interner (chalk-ir/src/interner.rs, `impl Interner for ChalkIr`)

In the default interner no interning actually occurs: types and goals are
wrapped in an `Arc` (modelled as a one-field structure, preserving the
indirection), lifetimes and parameters are stored as-is, goal-sequences and
substitutions are collected into vectors.  The intern/data operations never
inspect the structural payload, so the embedding is parametric in the
payload types, mirroring the generic associated types of the Rust trait. -/

namespace ChalkIr

/-- Shared-ownership pointer: `Arc::new` wraps, `Deref` unwraps. -/
structure Arc (α : Type) where
  val : α
deriving DecidableEq, Repr

/-- Source: `fn intern_ty(&self, ty) -> Arc<TyData<ChalkIr>> { Arc::new(ty) }`. -/
def intern_ty {TyData : Type} (ty : TyData) : Arc TyData := Arc.mk ty

/-- Source: `fn ty_data(&self, ty: &Arc<TyData<ChalkIr>>) -> &TyData { ty }` (deref). -/
def ty_data {TyData : Type} (ty : Arc TyData) : TyData := ty.val

/-- Source: `fn intern_lifetime(&self, lifetime) -> LifetimeData<ChalkIr> { lifetime }`. -/
def intern_lifetime {LifetimeData : Type} (lifetime : LifetimeData) : LifetimeData := lifetime

/-- Source: `fn lifetime_data(&self, lifetime) -> &LifetimeData { lifetime }`. -/
def lifetime_data {LifetimeData : Type} (lifetime : LifetimeData) : LifetimeData := lifetime

/-- Source: `fn intern_parameter(&self, parameter) -> ParameterData<ChalkIr> { parameter }`. -/
def intern_parameter {ParameterData : Type} (parameter : ParameterData) : ParameterData :=
  parameter

/-- Source: `fn parameter_data(&self, parameter) -> &ParameterData { parameter }`. -/
def parameter_data {ParameterData : Type} (parameter : ParameterData) : ParameterData :=
  parameter

/-- Source: `fn intern_goal(&self, goal) -> Arc<GoalData<ChalkIr>> { Arc::new(goal) }`. -/
def intern_goal {GoalData : Type} (goal : GoalData) : Arc GoalData := Arc.mk goal

/-- Source: `fn goal_data(&self, goal: &Arc<GoalData<ChalkIr>>) -> &GoalData { goal }`. -/
def goal_data {GoalData : Type} (goal : Arc GoalData) : GoalData := goal.val

/-- Source: `fn intern_goals(&self, data) -> Vec<Goal<ChalkIr>> { data.into_iter().collect() }`. -/
def intern_goals {Goal : Type} (data : List Goal) : List Goal := data

/-- Source: `fn goals_data(&self, goals: &Vec<Goal<ChalkIr>>) -> &[Goal<ChalkIr>] { goals }`. -/
def goals_data {Goal : Type} (goals : List Goal) : List Goal := goals

/-- Source: `fn intern_substitution<E>(&self, data) -> Result<Vec<Parameter>, E>
\{ data.into_iter().collect() }` — `collect` over an iterator of `Result`
stops at the first `Err`; otherwise it accumulates the `Ok` payloads in order. -/
def intern_substitution {Parameter E : Type} :
    List (Except E Parameter) → Except E (List Parameter)
  | [] => Except.ok []
  | Except.error e :: _ => Except.error e
  | Except.ok p :: rest =>
    match intern_substitution rest with
    | Except.error e => Except.error e
    | Except.ok ps => Except.ok (p :: ps)

/-- Source: `fn substitution_data(&self, substitution) -> &[Parameter] { substitution }`. -/
def substitution_data {Parameter : Type} (substitution : List Parameter) : List Parameter :=
  substitution

end ChalkIr

/-! ## Coinductive goal classification (chalk-solve/src/coinductive_goal.rs)

The classification is a pure function over the goal's structural data plus
one database lookup (`db.trait_datum(trait_id)`).  The `GoalData` /
`DomainGoal` shapes are those matched in the source; the variants hit only
by the catch-all arm `GoalData::DomainGoal(_) => false` (well-formedness of
a type, from-env forms) are modelled from the spec's enumeration of "other
well-formedness forms". -/

namespace CIr

/-- Trait identifier (`TraitId<I>` with `RawId` payload under `ChalkIr`). -/
structure TraitId where
  index : Nat
deriving DecidableEq, Repr

/-- Opaque payloads of domain goals the classifier never inspects. -/
structure TyIr where
  index : Nat
deriving DecidableEq, Repr

/-- Trait reference: the classifier reads only its `trait_id` field. -/
structure TraitRef where
  trait_id : TraitId
  substitution : List Nat
deriving DecidableEq, Repr

/-- Where-clause variants matched by `DomainGoal::Holds(wca)` in the source. -/
inductive WhereClause where
  | Implemented (tr : TraitRef)
  | AliasEq (aliasTy : TyIr) (ty : TyIr)
  | LifetimeOutlives (a b : Nat)
  | TypeOutlives (ty : TyIr) (lt : Nat)
deriving DecidableEq, Repr

/-- Well-formedness forms: `WellFormed::Trait(..)` is matched explicitly;
`WellFormed::Ty` falls to the catch-all arm. -/
inductive WellFormed where
  | Trait (tr : TraitRef)
  | Ty (ty : TyIr)
deriving DecidableEq, Repr

/-- From-environment forms, hit only by the catch-all arm. -/
inductive FromEnv where
  | Trait (tr : TraitRef)
  | Ty (ty : TyIr)
deriving DecidableEq, Repr

/-- Domain goals: `Holds` and `WellFormed(Trait)` are matched explicitly in
the source; every other variant is covered by `GoalData::DomainGoal(_) => false`. -/
inductive DomainGoal where
  | Holds (wc : WhereClause)
  | WellFormed (wf : CIr.WellFormed)
  | FromEnv (fe : CIr.FromEnv)
  | Normalize (aliasTy : TyIr) (ty : TyIr)
deriving DecidableEq, Repr

/-- Kind of a quantifier (`QuantifierKind`). -/
inductive QuantifierKind where
  | ForAll
  | Exists
deriving DecidableEq, Repr

/-- Kind of a bound variable in a binder list. -/
inductive VariableKind where
  | ty
  | lifetime
deriving DecidableEq, Repr

/-- Program clause hypothesis of an `Implies` goal; opaque to the classifier.
Modelled from the spec: the clause list is never inspected by classification. -/
structure ProgramClause where
  index : Nat
deriving DecidableEq, Repr

/-- Goal data (`GoalData<I>`); under `ChalkIr` a `Goal` is an `Arc<GoalData>`
and `goal.data(interner)` dereferences it, so the classifier is modelled
directly on the structural data.  `Quantified` carries its binder list
inline (`Binders<Goal>`: the binder kinds plus the bound value, which
`skip_binders()` projects out). -/
inductive GoalData where
  | DomainGoal (dg : CIr.DomainGoal)
  | Quantified (q : QuantifierKind) (binders : List VariableKind) (g : GoalData)
  | Implies (clauses : List ProgramClause) (g : GoalData)
  | All (goals : List GoalData)
  | Not (g : GoalData)
  | EqGoal (a b : Nat)
  | CannotProve
  | SubtypeGoal (a b : TyIr)

/-- Per-trait flags consulted by the classifier (`TraitDatum` flags). -/
structure TraitDatum where
  auto : Bool
  coinductive : Bool
deriving DecidableEq, Repr

/-- Source: `is_auto_trait` reads the auto flag. -/
def TraitDatum.is_auto_trait (d : TraitDatum) : Bool := d.auto

/-- Source: `is_coinductive_trait` reads the coinductive flag. -/
def TraitDatum.is_coinductive_trait (d : TraitDatum) : Bool := d.coinductive

/-- The one external dependency: a trait-fact lookup (`RustIrDatabase`). -/
structure RustIrDatabase where
  trait_datum : TraitId → TraitDatum

/-- Source: `impl IsCoinductive for Goal`, the match over `self.data(interner)`. -/
def is_coinductive (db : RustIrDatabase) : GoalData → Bool
  | GoalData.DomainGoal (DomainGoal.Holds wca) =>
    match wca with
    | WhereClause.Implemented tr =>
      (db.trait_datum tr.trait_id).is_auto_trait
        || (db.trait_datum tr.trait_id).is_coinductive_trait
    | WhereClause.AliasEq _ _ => false
    | WhereClause.LifetimeOutlives _ _ => false
    | WhereClause.TypeOutlives _ _ => false
  | GoalData.DomainGoal (DomainGoal.WellFormed (WellFormed.Trait _)) => true
  | GoalData.DomainGoal _ => false
  | GoalData.Quantified _ _ g => is_coinductive db g
  | GoalData.Implies _ g => is_coinductive db g
  | GoalData.All _ => true
  | GoalData.Not _ => false
  | GoalData.EqGoal _ _ => false
  | GoalData.CannotProve => false
  | GoalData.SubtypeGoal _ _ => false

/-- Environment of an in-environment goal; its contents are ignored by the
canonical classification.  Modelled from the spec: only the clause list is
carried, as classification never reads it. -/
structure Environment where
  clauses : List ProgramClause
deriving DecidableEq, Repr

/-- A value paired with its environment (`InEnvironment<G>`). -/
structure InEnvironment (α : Type) where
  environment : Environment
  goal : α
deriving DecidableEq, Repr

/-- Canonicalized value: bound variable kinds plus the closed value. -/
structure Canonical (α : Type) where
  value : α
  binders : List VariableKind
deriving DecidableEq, Repr

/-- Canonical value closed under a universe binder (`UCanonical<T>`). -/
structure UCanonical (α : Type) where
  canonical : Canonical α
  universes : Nat
deriving DecidableEq, Repr

/-- Source: `impl IsCoinductive for UCanonical<InEnvironment<Goal<I>>>`:
`self.canonical.value.goal.is_coinductive(db)`. -/
def UCanonical.is_coinductive (db : RustIrDatabase)
    (u : UCanonical (InEnvironment GoalData)) : Bool :=
  CIr.is_coinductive db u.canonical.value.goal

end CIr

/-! ## Zip structural matcher (chalk-rust/src/zip.rs)

The Rust `Zipper` is a mutable object with two leaf callbacks returning
`Result<()>`; it is modelled as explicit state passing: a callback takes
the current state and the two leaves and returns an outcome.  An outcome is
`ok` with the updated state, a recoverable `err` carrying the structured
content of the `bail!` diagnostic, or an unrecoverable `fault` (a `panic!`
or failed `assert_eq!`), which the combinators propagate like an unwinding
panic and never convert into an `err`. -/

namespace CRust

/-- Types are opaque to the walk: `impl Zip for Ty` only calls `zip_tys`. -/
structure Ty where
  index : Nat
deriving DecidableEq, Repr

/-- Lifetimes are opaque to the walk: `impl Zip for Lifetime` only calls
`zip_lifetimes`. -/
structure Lifetime where
  index : Nat
deriving DecidableEq, Repr

/-- Atomic token compared by equality (`impl Zip for ItemId`). -/
structure ItemId where
  index : Nat
deriving DecidableEq, Repr

/-- Atomic token compared by equality (`impl Zip for TypeName`). -/
structure TypeName where
  index : Nat
deriving DecidableEq, Repr

/-- Atomic token compared by equality (`impl Zip for Identifier`). -/
structure Identifier where
  index : Nat
deriving DecidableEq, Repr

/-- Tagged union of a type-slot or a lifetime-slot (`ParameterKind<T, L>`). -/
inductive ParameterKind (T L : Type) where
  | Ty (t : T)
  | Lifetime (l : L)
deriving DecidableEq, Repr

/-- A generic parameter: `ParameterKind<Ty, Lifetime>`. -/
abbrev Parameter : Type := ParameterKind Ty Lifetime

/-- Trait reference: a trait id applied to a parameter sequence. -/
structure TraitRef where
  trait_id : ItemId
  parameters : List Parameter
deriving DecidableEq, Repr

/-- Application type: a type name applied to a parameter sequence. -/
structure ApplicationTy where
  name : TypeName
  parameters : List Parameter
deriving DecidableEq, Repr

/-- Projection type: an associated-type name projected out of a trait
reference. -/
structure ProjectionTy where
  trait_ref : TraitRef
  name : Identifier
deriving DecidableEq, Repr

/-- Normalize goal: a projection equated with a type. -/
structure Normalize where
  projection : ProjectionTy
  ty : Ty
deriving DecidableEq, Repr

/-- Where-clause tagged union (`impl Zip for WhereClause`). -/
inductive WhereClause where
  | Implemented (tr : TraitRef)
  | Normalize (n : CRust.Normalize)
deriving DecidableEq, Repr

/-- Where-clause-goal tagged union (`impl Zip for WhereClauseGoal`). -/
inductive WhereClauseGoal where
  | Implemented (tr : TraitRef)
  | Normalize (n : CRust.Normalize)
deriving DecidableEq, Repr

/-- Environment: a logical universe index plus an ordered clause sequence. -/
structure Environment where
  «universe» : Nat
  clauses : List WhereClause
deriving DecidableEq, Repr

/-- A value paired with its environment (`InEnvironment<T>`). -/
structure InEnvironment (α : Type) where
  environment : Environment
  goal : α
deriving DecidableEq, Repr

/-- Recoverable zip diagnostics, carrying the data the source's `bail!`
format strings carry. -/
inductive ZipError where
  | arityMismatch (la lb : Nat)
  | itemIdMismatch (a b : ItemId)
  | typeNameMismatch (a b : TypeName)
  | identifierMismatch (a b : Identifier)
  | whereClauseMismatch (a b : WhereClause)
  | whereClauseGoalMismatch (a b : WhereClauseGoal)
  | leafMismatch (msg : String)
deriving DecidableEq, Repr

/-- Outcome of a zip step over state type `σ`: success with the updated
state, a recoverable error (Rust `Err`), or an unrecoverable fault (Rust
`panic!` / assertion failure). -/
inductive ZipOut (σ : Type) where
  | ok (s : σ)
  | err (e : ZipError)
  | fault (msg : String)
deriving DecidableEq, Repr

/-- Sequencing of zip steps: the Rust `?` operator on `Result`, with a
fault propagating like an unwinding panic. -/
def ZipOut.bind {σ : Type} (x : ZipOut σ) (f : σ → ZipOut σ) : ZipOut σ :=
  match x with
  | ZipOut.ok s => f s
  | ZipOut.err e => ZipOut.err e
  | ZipOut.fault m => ZipOut.fault m

/-- A zipper: the two caller-supplied leaf callbacks over state `σ`. -/
structure Zipper (σ : Type) where
  zip_tys : σ → Ty → Ty → ZipOut σ
  zip_lifetimes : σ → Lifetime → Lifetime → ZipOut σ

/-- Element-wise walk of `a.iter().zip(b)`: zip positional pairs in order,
stopping at the first non-`ok` outcome (or at the shorter sequence, as the
Rust pair iterator does). -/
def zipElems {σ α : Type} (f : σ → α → α → ZipOut σ) :
    σ → List α → List α → ZipOut σ
  | s, a :: as_, b :: bs => ZipOut.bind (f s a b) (fun s1 => zipElems f s1 as_ bs)
  | s, _, _ => ZipOut.ok s

/-- Source: `impl<T: Zip> Zip for Vec<T>` — bail with both lengths if they
differ, otherwise zip element-wise. -/
def listZipWith {σ α : Type} (f : σ → α → α → ZipOut σ) (s : σ)
    (a b : List α) : ZipOut σ :=
  if a.length ≠ b.length then ZipOut.err (ZipError.arityMismatch a.length b.length)
  else zipElems f s a b

/-- Source: `impl<T: Zip, U: Zip> Zip for (T, U)` — zip the first components,
then the second. -/
def pairZipWith {σ T U : Type} (fT : σ → T → T → ZipOut σ)
    (fU : σ → U → U → ZipOut σ) (s : σ) (a b : T × U) : ZipOut σ :=
  ZipOut.bind (fT s a.1 b.1) (fun s1 => fU s1 a.2 b.2)

/-- Source: `impl Zip for Ty` — bottoms out in the `zip_tys` callback. -/
def Ty.zip_with {σ : Type} (z : Zipper σ) (s : σ) (a b : Ty) : ZipOut σ :=
  z.zip_tys s a b

/-- Source: `impl Zip for Lifetime` — bottoms out in the `zip_lifetimes`
callback. -/
def Lifetime.zip_with {σ : Type} (z : Zipper σ) (s : σ) (a b : Lifetime) : ZipOut σ :=
  z.zip_lifetimes s a b

/-- Source: `impl Zip for ItemId` — compared by equality, never descended. -/
def ItemId.zip_with {σ : Type} (s : σ) (a b : ItemId) : ZipOut σ :=
  if a ≠ b then ZipOut.err (ZipError.itemIdMismatch a b) else ZipOut.ok s

/-- Source: `impl Zip for TypeName` — compared by equality, never descended. -/
def TypeName.zip_with {σ : Type} (s : σ) (a b : TypeName) : ZipOut σ :=
  if a ≠ b then ZipOut.err (ZipError.typeNameMismatch a b) else ZipOut.ok s

/-- Source: `impl Zip for Identifier` — compared by equality, never descended. -/
def Identifier.zip_with {σ : Type} (s : σ) (a b : Identifier) : ZipOut σ :=
  if a ≠ b then ZipOut.err (ZipError.identifierMismatch a b) else ZipOut.ok s

/-- Source: `impl<T: Zip, L: Zip> Zip for ParameterKind<T, L>` — matching
tags recurse into the payloads; a mixed-kind pairing panics. -/
def ParameterKind.zip_with {σ T L : Type} (fT : σ → T → T → ZipOut σ)
    (fL : σ → L → L → ZipOut σ) (s : σ) :
    ParameterKind T L → ParameterKind T L → ZipOut σ
  | ParameterKind.Ty a, ParameterKind.Ty b => fT s a b
  | ParameterKind.Lifetime a, ParameterKind.Lifetime b => fL s a b
  | ParameterKind.Ty _, ParameterKind.Lifetime _ => ZipOut.fault "zipping things of mixed kind"
  | ParameterKind.Lifetime _, ParameterKind.Ty _ => ZipOut.fault "zipping things of mixed kind"

/-- Zip of a generic parameter: `ParameterKind<Ty, Lifetime>` with the
leaf impls for `Ty` and `Lifetime`. -/
def Parameter.zip_with {σ : Type} (z : Zipper σ) (s : σ) (a b : Parameter) : ZipOut σ :=
  ParameterKind.zip_with (Ty.zip_with z) (Lifetime.zip_with z) s a b

/-- Source: `impl Zip for TraitRef` — zip the trait ids, then the parameter
sequences. -/
def TraitRef.zip_with {σ : Type} (z : Zipper σ) (s : σ) (a b : TraitRef) : ZipOut σ :=
  ZipOut.bind (ItemId.zip_with s a.trait_id b.trait_id)
    (fun s1 => listZipWith (Parameter.zip_with z) s1 a.parameters b.parameters)

/-- Source: `impl Zip for ApplicationTy` — zip the names, then the
parameter sequences. -/
def ApplicationTy.zip_with {σ : Type} (z : Zipper σ) (s : σ) (a b : ApplicationTy) : ZipOut σ :=
  ZipOut.bind (TypeName.zip_with s a.name b.name)
    (fun s1 => listZipWith (Parameter.zip_with z) s1 a.parameters b.parameters)

/-- Source: `impl Zip for ProjectionTy` — zip the trait references, then the
names. -/
def ProjectionTy.zip_with {σ : Type} (z : Zipper σ) (s : σ) (a b : ProjectionTy) : ZipOut σ :=
  ZipOut.bind (TraitRef.zip_with z s a.trait_ref b.trait_ref)
    (fun s1 => Identifier.zip_with s1 a.name b.name)

/-- Source: `impl Zip for Normalize` — zip the projections, then the types. -/
def Normalize.zip_with {σ : Type} (z : Zipper σ) (s : σ) (a b : Normalize) : ZipOut σ :=
  ZipOut.bind (ProjectionTy.zip_with z s a.projection b.projection)
    (fun s1 => Ty.zip_with z s1 a.ty b.ty)

/-- Source: `impl Zip for WhereClause` — same tags recurse; different tags
bail with both values. -/
def WhereClause.zip_with {σ : Type} (z : Zipper σ) (s : σ) :
    WhereClause → WhereClause → ZipOut σ
  | WhereClause.Implemented a, WhereClause.Implemented b => TraitRef.zip_with z s a b
  | WhereClause.Normalize a, WhereClause.Normalize b => Normalize.zip_with z s a b
  | a@(WhereClause.Implemented _), b@(WhereClause.Normalize _) =>
    ZipOut.err (ZipError.whereClauseMismatch a b)
  | a@(WhereClause.Normalize _), b@(WhereClause.Implemented _) =>
    ZipOut.err (ZipError.whereClauseMismatch a b)

/-- Source: `impl Zip for WhereClauseGoal` — same tags recurse; different
tags bail with both values. -/
def WhereClauseGoal.zip_with {σ : Type} (z : Zipper σ) (s : σ) :
    WhereClauseGoal → WhereClauseGoal → ZipOut σ
  | WhereClauseGoal.Implemented a, WhereClauseGoal.Implemented b => TraitRef.zip_with z s a b
  | WhereClauseGoal.Normalize a, WhereClauseGoal.Normalize b => Normalize.zip_with z s a b
  | a@(WhereClauseGoal.Implemented _), b@(WhereClauseGoal.Normalize _) =>
    ZipOut.err (ZipError.whereClauseGoalMismatch a b)
  | a@(WhereClauseGoal.Normalize _), b@(WhereClauseGoal.Implemented _) =>
    ZipOut.err (ZipError.whereClauseGoalMismatch a b)

/-- Source: `impl Zip for Environment` — `assert_eq!` on the universes and
on the clause counts (an unrecoverable fault when violated), then zip the
clause sequences. -/
def Environment.zip_with {σ : Type} (z : Zipper σ) (s : σ) (a b : Environment) : ZipOut σ :=
  if a.«universe» ≠ b.«universe» then
    ZipOut.fault "assertion failed: zipped environments have distinct universes"
  else if a.clauses.length ≠ b.clauses.length then
    ZipOut.fault "assertion failed: zipped environments have different numbers of clauses"
  else listZipWith (WhereClause.zip_with z) s a.clauses b.clauses

/-- Source: `impl<T: Zip> Zip for InEnvironment<T>` — zip the environments,
then the goals. -/
def InEnvironment.zip_with {σ α : Type} (f : σ → α → α → ZipOut σ) (z : Zipper σ)
    (s : σ) (a b : InEnvironment α) : ZipOut σ :=
  ZipOut.bind (Environment.zip_with z s a.environment b.environment)
    (fun s1 => f s1 a.goal b.goal)

/-- The zip step at `r` produced a success (an `Ok` result in the source). -/
def zipOk {σ : Type} (r : ZipOut σ) : Prop :=
  ∃ s, r = ZipOut.ok s

end CRust

/-! ## Concrete instances used to evaluate the theorems -/

namespace CRust

/-- Did the zip step produce a recoverable error value? -/
def ZipOut.isErr {σ : Type} : ZipOut σ → Bool
  | ZipOut.err _ => true
  | _ => false

/-- A zipper whose leaf callbacks always succeed and carry no state. -/
def zNull : Zipper Unit where
  zip_tys := fun s _ _ => ZipOut.ok s
  zip_lifetimes := fun s _ _ => ZipOut.ok s

/-- A leaf callback that counts its invocations in the state. -/
def countTys : Nat → Ty → Ty → ZipOut Nat := fun s _ _ => ZipOut.ok (s + 1)

/-- A leaf callback that always fails. -/
def failTys : Nat → Ty → Ty → ZipOut Nat := fun _ _ _ => ZipOut.err (ZipError.leafMismatch "no")

/-- A sample trait reference with one type and one lifetime parameter. -/
def trW : TraitRef :=
  TraitRef.mk (ItemId.mk 0) [ParameterKind.Ty (Ty.mk 1), ParameterKind.Lifetime (Lifetime.mk 2)]

end CRust

/-- A database in which no trait is auto or explicitly coinductive. -/
def CIr.dbNull : CIr.RustIrDatabase where
  trait_datum := fun _ => CIr.TraitDatum.mk false false

/-! ## Helper lemmas shared by the zip theorems -/

namespace CRust

/-- Sequencing preserves success when both steps succeed. -/
theorem zipOk_bind_of {σ : Type} {x : ZipOut σ} {f : σ → ZipOut σ}
    (hx : zipOk x) (hf : ∀ s, zipOk (f s)) : zipOk (ZipOut.bind x f) := by
  obtain ⟨s, rfl⟩ := hx
  simpa [ZipOut.bind] using hf s

/-- Element-wise reflexivity: if the element zip succeeds on every equal
pair from every state, the walk over two copies of a list succeeds. -/
theorem zipElems_refl {σ α : Type} (f : σ → α → α → ZipOut σ)
    (hf : ∀ s a, zipOk (f s a a)) : ∀ (s : σ) (l : List α), zipOk (zipElems f s l l) := by
  intro s l
  induction l generalizing s with
  | nil => exact ⟨s, rfl⟩
  | cons x xs ih =>
    simp only [zipElems]
    exact zipOk_bind_of (hf s x) (fun s1 => ih s1)

/-- Sequence reflexivity: equal lengths pass the arity check, and then the
element-wise walk succeeds. -/
theorem listZipWith_refl {σ α : Type} (f : σ → α → α → ZipOut σ)
    (hf : ∀ s a, zipOk (f s a a)) : ∀ (s : σ) (l : List α), zipOk (listZipWith f s l l) := by
  intro s l
  simpa [listZipWith] using zipElems_refl f hf s l

end CRust

/-! ## Claim theorems -/

/-- C1: Interning round-trip for the default `ChalkIr` interner: looking up
the data of an interned handle returns the structural value that was
interned, for every leaf kind (type, lifetime, parameter, goal), and the
interned goal-sequence preserves the sequence in order — interning is
lossless and order-preserving on structure. -/
theorem ChalkIr.intern_roundtrip :
    (∀ (TyData : Type) (d : TyData), ChalkIr.ty_data (ChalkIr.intern_ty d) = d) ∧
    (∀ (LifetimeData : Type) (d : LifetimeData),
      ChalkIr.lifetime_data (ChalkIr.intern_lifetime d) = d) ∧
    (∀ (ParameterData : Type) (d : ParameterData),
      ChalkIr.parameter_data (ChalkIr.intern_parameter d) = d) ∧
    (∀ (GoalData : Type) (d : GoalData), ChalkIr.goal_data (ChalkIr.intern_goal d) = d) ∧
    (∀ (Goal : Type) (ds : List Goal), ChalkIr.goals_data (ChalkIr.intern_goals ds) = ds) :=
  ⟨fun _ _ => rfl, fun _ _ => rfl, fun _ _ => rfl, fun _ _ => rfl, fun _ _ => rfl⟩

/-- C8: `ChalkIr.intern_substitution` collects an iterator of results: if
every item is `Ok` it returns `Ok` of exactly those parameters in order;
if an item is `Err`, the first `Err` is returned and the items after it
contribute nothing to the result. -/
theorem ChalkIr.intern_substitution_spec {Parameter E : Type} :
    (∀ ps : List Parameter,
      ChalkIr.intern_substitution (ps.map Except.ok) = (Except.ok ps : Except E (List Parameter))) ∧
    (∀ (ps : List Parameter) (e : E) (suf : List (Except E Parameter)),
      ChalkIr.intern_substitution (ps.map Except.ok ++ Except.error e :: suf) =
        Except.error e) := by
  constructor
  · intro ps
    induction ps with
    | nil => rfl
    | cons p ps ih => simp [ChalkIr.intern_substitution, ih]
  · intro ps e suf
    induction ps with
    | nil => rfl
    | cons p ps ih => simp [ChalkIr.intern_substitution, ih]

/-- C2: Domain-goal classification: a domain goal is coinductive iff it is
a "trait is implemented" goal whose trait is registered auto or explicitly
coinductive, or the well-formedness of a trait reference (always, whatever
the trait flags say); every other domain goal (alias equality, outlives,
other well-formedness forms, from-env forms, normalization) is inductive. -/
theorem CIr.domain_goal_classification (db : CIr.RustIrDatabase) (dg : CIr.DomainGoal) :
    CIr.is_coinductive db (CIr.GoalData.DomainGoal dg) = true ↔
      ((∃ tr, dg = CIr.DomainGoal.Holds (CIr.WhereClause.Implemented tr) ∧
          ((db.trait_datum tr.trait_id).is_auto_trait = true ∨
            (db.trait_datum tr.trait_id).is_coinductive_trait = true)) ∨
        (∃ tr, dg = CIr.DomainGoal.WellFormed (CIr.WellFormed.Trait tr))) := by
  cases dg with
  | Holds wc =>
    cases wc with
    | Implemented tr => simp [CIr.is_coinductive]
    | AliasEq a t => simp [CIr.is_coinductive]
    | LifetimeOutlives a b => simp [CIr.is_coinductive]
    | TypeOutlives t l => simp [CIr.is_coinductive]
  | WellFormed wf =>
    cases wf with
    | Trait tr => simp [CIr.is_coinductive]
    | Ty t => simp [CIr.is_coinductive]
  | FromEnv fe => simp [CIr.is_coinductive]
  | Normalize a t => simp [CIr.is_coinductive]

/-- C3: Connective classification is constant: every conjunction `All(..)`
is coinductive regardless of its subgoals — in particular a conjunction of
one inductive and one coinductive subgoal — and every negation, term
equality, `CannotProve` and subtype goal is inductive, regardless of its
contents. -/
theorem CIr.connective_classification (db : CIr.RustIrDatabase) :
    (∀ gs, CIr.is_coinductive db (CIr.GoalData.All gs) = true) ∧
    (∀ g, CIr.is_coinductive db (CIr.GoalData.Not g) = false) ∧
    (∀ a b, CIr.is_coinductive db (CIr.GoalData.EqGoal a b) = false) ∧
    (CIr.is_coinductive db CIr.GoalData.CannotProve = false) ∧
    (∀ a b, CIr.is_coinductive db (CIr.GoalData.SubtypeGoal a b) = false) ∧
    (∀ g1 g2, CIr.is_coinductive db g1 = false → CIr.is_coinductive db g2 = true →
      CIr.is_coinductive db (CIr.GoalData.All [g1, g2]) = true) := by
  refine ⟨fun gs => rfl, fun g => rfl, fun a b => rfl, rfl, fun a b => rfl, ?_⟩
  intro g1 g2 _ _
  rfl

/-- C3 witness: under the empty database, `CannotProve` is inductive, the
empty conjunction is coinductive, and their two-element conjunction is
classified coinductive by the theorem. -/
theorem CIr.connective_classification_witness :
    CIr.is_coinductive CIr.dbNull CIr.GoalData.CannotProve = false ∧
    CIr.is_coinductive CIr.dbNull (CIr.GoalData.All []) = true ∧
    CIr.is_coinductive CIr.dbNull
      (CIr.GoalData.All [CIr.GoalData.CannotProve, CIr.GoalData.All []]) = true :=
  ⟨rfl, rfl,
    (CIr.connective_classification CIr.dbNull).2.2.2.2.2
      CIr.GoalData.CannotProve (CIr.GoalData.All []) rfl rfl⟩

/-- C4: Wrapper transparency: a quantified goal (binder stripped), an
implication with conclusion `g`, and a canonical in-environment goal closed
under a universe binder are all classified exactly as `g` itself, the
binder list, hypothesis clauses, environment and universe metadata being
ignored. -/
theorem CIr.wrapper_transparency (db : CIr.RustIrDatabase) :
    (∀ q binders g, CIr.is_coinductive db (CIr.GoalData.Quantified q binders g) =
      CIr.is_coinductive db g) ∧
    (∀ clauses g, CIr.is_coinductive db (CIr.GoalData.Implies clauses g) =
      CIr.is_coinductive db g) ∧
    (∀ env binders universes g,
      CIr.UCanonical.is_coinductive db
        (CIr.UCanonical.mk (CIr.Canonical.mk (CIr.InEnvironment.mk env g) binders) universes) =
        CIr.is_coinductive db g) :=
  ⟨fun _ _ _ => rfl, fun _ _ => rfl, fun _ _ _ _ => rfl⟩

/-- C5: Sequence arity sensitivity: zipping two sequences of different
lengths fails with an arity-mismatch diagnostic carrying both lengths,
regardless of element content or zipper; with equal lengths, the two empty
sequences succeed with the state unchanged, and a non-empty pair zips its
head first and then the tails, so the whole zip succeeds iff every
positional pair succeeds in order. -/
theorem CRust.list_zip_arity {σ α : Type} (f : σ → α → α → CRust.ZipOut σ) (s : σ) :
    (∀ a b : List α, a.length ≠ b.length →
      CRust.listZipWith f s a b =
        CRust.ZipOut.err (CRust.ZipError.arityMismatch a.length b.length)) ∧
    (CRust.listZipWith f s ([] : List α) [] = CRust.ZipOut.ok s) ∧
    (∀ (x y : α) (xs ys : List α), xs.length = ys.length →
      CRust.listZipWith f s (x :: xs) (y :: ys) =
        CRust.ZipOut.bind (f s x y) (fun s1 => CRust.listZipWith f s1 xs ys)) := by
  refine ⟨fun a b h => by simp [CRust.listZipWith, h], rfl, ?_⟩
  intro x y xs ys h
  have hlen : (x :: xs).length = (y :: ys).length := by simp [h]
  simp [CRust.listZipWith, hlen, h, CRust.zipElems]

/-- C5 witness: zipping lengths 2 and 3 with the counting callback reports
the arity mismatch `(2, 3)`, and a matched cons pair unfolds head first. -/
theorem CRust.list_zip_arity_witness :
    (([CRust.Ty.mk 0, CRust.Ty.mk 1] : List CRust.Ty).length ≠
        ([CRust.Ty.mk 2, CRust.Ty.mk 3, CRust.Ty.mk 4] : List CRust.Ty).length ∧
      CRust.listZipWith CRust.countTys 0 [CRust.Ty.mk 0, CRust.Ty.mk 1]
          [CRust.Ty.mk 2, CRust.Ty.mk 3, CRust.Ty.mk 4] =
        CRust.ZipOut.err (CRust.ZipError.arityMismatch 2 3)) ∧
    (([CRust.Ty.mk 1] : List CRust.Ty).length = ([CRust.Ty.mk 2] : List CRust.Ty).length ∧
      CRust.listZipWith CRust.countTys 0 [CRust.Ty.mk 0, CRust.Ty.mk 1]
          [CRust.Ty.mk 5, CRust.Ty.mk 2] =
        CRust.ZipOut.bind (CRust.countTys 0 (CRust.Ty.mk 0) (CRust.Ty.mk 5))
          (fun s1 => CRust.listZipWith CRust.countTys s1 [CRust.Ty.mk 1] [CRust.Ty.mk 2])) :=
  ⟨⟨by decide,
    (CRust.list_zip_arity CRust.countTys 0).1 [CRust.Ty.mk 0, CRust.Ty.mk 1]
      [CRust.Ty.mk 2, CRust.Ty.mk 3, CRust.Ty.mk 4] (by decide)⟩,
    ⟨by decide,
      (CRust.list_zip_arity CRust.countTys 0).2.2 (CRust.Ty.mk 0) (CRust.Ty.mk 5)
        [CRust.Ty.mk 1] [CRust.Ty.mk 2] (by decide)⟩⟩

/-- C10: Arity-failure atomicity: when the lengths differ the arity check
fires before any element is visited — the result is the arity-mismatch
error for every leaf callback and every starting state alike, so no
callback is invoked and no state is consumed — and zipping two empty
sequences succeeds returning the state unchanged without invoking any
callback. -/
theorem CRust.arity_failure_atomicity {σ α : Type} :
    (∀ (f : σ → α → α → CRust.ZipOut σ) (s : σ) (a b : List α), a.length ≠ b.length →
      CRust.listZipWith f s a b =
        CRust.ZipOut.err (CRust.ZipError.arityMismatch a.length b.length)) ∧
    (∀ (f g : σ → α → α → CRust.ZipOut σ) (s t : σ) (a b : List α), a.length ≠ b.length →
      CRust.listZipWith f s a b = CRust.listZipWith g t a b) ∧
    (∀ (f g : σ → α → α → CRust.ZipOut σ) (s : σ),
      CRust.listZipWith f s ([] : List α) [] = CRust.ZipOut.ok s ∧
      CRust.listZipWith g s ([] : List α) [] = CRust.ZipOut.ok s) := by
  refine ⟨fun f s a b h => by simp [CRust.listZipWith, h], ?_, fun f g s => ⟨rfl, rfl⟩⟩
  intro f g s t a b h
  simp [CRust.listZipWith, h]

/-- C10 witness: on lengths 1 vs 2, the counting callback and the
always-failing callback produce the same arity error from different
states, and on two empty sequences both succeed without counting. -/
theorem CRust.arity_failure_atomicity_witness :
    (([CRust.Ty.mk 0] : List CRust.Ty).length ≠
        ([CRust.Ty.mk 1, CRust.Ty.mk 2] : List CRust.Ty).length ∧
      CRust.listZipWith CRust.countTys 7 [CRust.Ty.mk 0] [CRust.Ty.mk 1, CRust.Ty.mk 2] =
        CRust.listZipWith CRust.failTys 9 [CRust.Ty.mk 0] [CRust.Ty.mk 1, CRust.Ty.mk 2]) ∧
    (CRust.listZipWith CRust.countTys 7 ([] : List CRust.Ty) [] = CRust.ZipOut.ok 7 ∧
      CRust.listZipWith CRust.failTys 7 ([] : List CRust.Ty) [] = CRust.ZipOut.ok 7) :=
  ⟨⟨by decide,
    (CRust.arity_failure_atomicity.2.1) CRust.countTys CRust.failTys 7 9
      [CRust.Ty.mk 0] [CRust.Ty.mk 1, CRust.Ty.mk 2] (by decide)⟩,
    CRust.arity_failure_atomicity.2.2 CRust.countTys CRust.failTys 7⟩

/-- C6 counterexample: zipping a type-slot against a lifetime-slot — a
parameter-kind tagged union with differing tags — does not produce a
recoverable shape-mismatch error value: it halts with the mixed-kind
panic, so the claim that every tagged-union shape fails recoverably on
differing tags is false for parameter-kind. -/
theorem CRust.parameter_kind_mismatch_counterexample :
    CRust.Parameter.zip_with CRust.zNull () (CRust.ParameterKind.Ty (CRust.Ty.mk 0))
        (CRust.ParameterKind.Lifetime (CRust.Lifetime.mk 0)) =
      CRust.ZipOut.fault "zipping things of mixed kind" ∧
    CRust.ZipOut.isErr (CRust.Parameter.zip_with CRust.zNull ()
        (CRust.ParameterKind.Ty (CRust.Ty.mk 0))
        (CRust.ParameterKind.Lifetime (CRust.Lifetime.mk 0))) = false :=
  ⟨rfl, rfl⟩

/-- C6 (amended): for the where-clause and where-clause-goal tagged unions,
differing tags fail with a recoverable shape-mismatch diagnostic carrying
both values, and matching tags recurse into the payloads — in particular
two "Implemented" values succeed iff the trait ids are equal and the
parameter sequences zip successfully; for the parameter-kind union,
matching tags recurse into the leaf callbacks but differing tags halt with
the unrecoverable mixed-kind fault rather than a recoverable diagnostic. -/
theorem CRust.tag_sensitivity {σ : Type} (z : CRust.Zipper σ) (s : σ) :
    (∀ a b, CRust.WhereClause.zip_with z s
        (CRust.WhereClause.Implemented a) (CRust.WhereClause.Normalize b) =
      CRust.ZipOut.err (CRust.ZipError.whereClauseMismatch
        (CRust.WhereClause.Implemented a) (CRust.WhereClause.Normalize b))) ∧
    (∀ a b, CRust.WhereClause.zip_with z s
        (CRust.WhereClause.Normalize a) (CRust.WhereClause.Implemented b) =
      CRust.ZipOut.err (CRust.ZipError.whereClauseMismatch
        (CRust.WhereClause.Normalize a) (CRust.WhereClause.Implemented b))) ∧
    (∀ a b, CRust.WhereClause.zip_with z s
        (CRust.WhereClause.Implemented a) (CRust.WhereClause.Implemented b) =
      CRust.TraitRef.zip_with z s a b) ∧
    (∀ a b, CRust.WhereClause.zip_with z s
        (CRust.WhereClause.Normalize a) (CRust.WhereClause.Normalize b) =
      CRust.Normalize.zip_with z s a b) ∧
    (∀ a b, CRust.WhereClauseGoal.zip_with z s
        (CRust.WhereClauseGoal.Implemented a) (CRust.WhereClauseGoal.Normalize b) =
      CRust.ZipOut.err (CRust.ZipError.whereClauseGoalMismatch
        (CRust.WhereClauseGoal.Implemented a) (CRust.WhereClauseGoal.Normalize b))) ∧
    (∀ a b, CRust.WhereClauseGoal.zip_with z s
        (CRust.WhereClauseGoal.Normalize a) (CRust.WhereClauseGoal.Implemented b) =
      CRust.ZipOut.err (CRust.ZipError.whereClauseGoalMismatch
        (CRust.WhereClauseGoal.Normalize a) (CRust.WhereClauseGoal.Implemented b))) ∧
    (∀ a b, CRust.WhereClauseGoal.zip_with z s
        (CRust.WhereClauseGoal.Implemented a) (CRust.WhereClauseGoal.Implemented b) =
      CRust.TraitRef.zip_with z s a b) ∧
    (∀ a b, CRust.WhereClauseGoal.zip_with z s
        (CRust.WhereClauseGoal.Normalize a) (CRust.WhereClauseGoal.Normalize b) =
      CRust.Normalize.zip_with z s a b) ∧
    (∀ t l, CRust.Parameter.zip_with z s
        (CRust.ParameterKind.Ty t) (CRust.ParameterKind.Lifetime l) =
      CRust.ZipOut.fault "zipping things of mixed kind") ∧
    (∀ l t, CRust.Parameter.zip_with z s
        (CRust.ParameterKind.Lifetime l) (CRust.ParameterKind.Ty t) =
      CRust.ZipOut.fault "zipping things of mixed kind") ∧
    (∀ t t', CRust.Parameter.zip_with z s
        (CRust.ParameterKind.Ty t) (CRust.ParameterKind.Ty t') = z.zip_tys s t t') ∧
    (∀ l l', CRust.Parameter.zip_with z s
        (CRust.ParameterKind.Lifetime l) (CRust.ParameterKind.Lifetime l') =
      z.zip_lifetimes s l l') ∧
    (∀ a b, CRust.zipOk (CRust.WhereClause.zip_with z s
        (CRust.WhereClause.Implemented a) (CRust.WhereClause.Implemented b)) ↔
      (a.trait_id = b.trait_id ∧
        CRust.zipOk (CRust.listZipWith (CRust.Parameter.zip_with z) s
          a.parameters b.parameters))) := by
  refine ⟨fun a b => rfl, fun a b => rfl, fun a b => rfl, fun a b => rfl,
    fun a b => rfl, fun a b => rfl, fun a b => rfl, fun a b => rfl,
    fun t l => rfl, fun l t => rfl, fun t t' => rfl, fun l l' => rfl, ?_⟩
  intro a b
  by_cases h : a.trait_id = b.trait_id <;>
    simp [CRust.WhereClause.zip_with, CRust.TraitRef.zip_with, CRust.ItemId.zip_with,
      CRust.ZipOut.bind, h, CRust.zipOk]

/-- C7: Contract violations halt rather than return: a mixed-kind
parameter pairing, and zipping two environments that differ in universe or
in clause count, never yield a recoverable error value — each produces the
unrecoverable fault of the corresponding `panic!` / failed `assert_eq!`,
distinct from the ordinary recoverable mismatch failures. -/
theorem CRust.contract_violation_faults {σ : Type} (z : CRust.Zipper σ) (s : σ) :
    (∀ t l, CRust.Parameter.zip_with z s
        (CRust.ParameterKind.Ty t) (CRust.ParameterKind.Lifetime l) =
          CRust.ZipOut.fault "zipping things of mixed kind" ∧
      CRust.ZipOut.isErr (CRust.Parameter.zip_with z s
        (CRust.ParameterKind.Ty t) (CRust.ParameterKind.Lifetime l)) = false) ∧
    (∀ l t, CRust.Parameter.zip_with z s
        (CRust.ParameterKind.Lifetime l) (CRust.ParameterKind.Ty t) =
          CRust.ZipOut.fault "zipping things of mixed kind" ∧
      CRust.ZipOut.isErr (CRust.Parameter.zip_with z s
        (CRust.ParameterKind.Lifetime l) (CRust.ParameterKind.Ty t)) = false) ∧
    (∀ a b : CRust.Environment, a.«universe» ≠ b.«universe» →
      CRust.Environment.zip_with z s a b =
          CRust.ZipOut.fault "assertion failed: zipped environments have distinct universes" ∧
        CRust.ZipOut.isErr (CRust.Environment.zip_with z s a b) = false) ∧
    (∀ a b : CRust.Environment, a.«universe» = b.«universe» →
      a.clauses.length ≠ b.clauses.length →
      CRust.Environment.zip_with z s a b =
          CRust.ZipOut.fault
            "assertion failed: zipped environments have different numbers of clauses" ∧
        CRust.ZipOut.isErr (CRust.Environment.zip_with z s a b) = false) := by
  refine ⟨fun t l => ⟨rfl, rfl⟩, fun l t => ⟨rfl, rfl⟩, ?_, ?_⟩
  · intro a b h
    constructor <;> simp [CRust.Environment.zip_with, h, CRust.ZipOut.isErr]
  · intro a b hu hc
    constructor <;> simp [CRust.Environment.zip_with, hu, hc, CRust.ZipOut.isErr]

/-- C7 witness: two environments in distinct universes, and two in the
same universe with different clause counts, each halt with the
corresponding assertion fault and produce no recoverable error. -/
theorem CRust.contract_violation_faults_witness :
    ((CRust.Environment.mk 0 []).«universe» ≠ (CRust.Environment.mk 1 []).«universe» ∧
      CRust.Environment.zip_with CRust.zNull () (CRust.Environment.mk 0 [])
          (CRust.Environment.mk 1 []) =
        CRust.ZipOut.fault "assertion failed: zipped environments have distinct universes" ∧
      CRust.ZipOut.isErr (CRust.Environment.zip_with CRust.zNull ()
        (CRust.Environment.mk 0 []) (CRust.Environment.mk 1 [])) = false) ∧
    ((CRust.Environment.mk 0 []).«universe» =
        (CRust.Environment.mk 0 [CRust.WhereClause.Implemented CRust.trW]).«universe» ∧
      (CRust.Environment.mk 0 []).clauses.length ≠
        (CRust.Environment.mk 0 [CRust.WhereClause.Implemented CRust.trW]).clauses.length ∧
      CRust.Environment.zip_with CRust.zNull () (CRust.Environment.mk 0 [])
          (CRust.Environment.mk 0 [CRust.WhereClause.Implemented CRust.trW]) =
        CRust.ZipOut.fault
          "assertion failed: zipped environments have different numbers of clauses" ∧
      CRust.ZipOut.isErr (CRust.Environment.zip_with CRust.zNull ()
        (CRust.Environment.mk 0 [])
        (CRust.Environment.mk 0 [CRust.WhereClause.Implemented CRust.trW])) = false) :=
  ⟨⟨by decide,
    (CRust.contract_violation_faults CRust.zNull ()).2.2.1
      (CRust.Environment.mk 0 []) (CRust.Environment.mk 1 []) (by decide)⟩,
    ⟨rfl, by decide,
      (CRust.contract_violation_faults CRust.zNull ()).2.2.2
        (CRust.Environment.mk 0 [])
        (CRust.Environment.mk 0 [CRust.WhereClause.Implemented CRust.trW])
        rfl (by decide)⟩⟩

/-- C9: Zip reflexivity: whenever the zipper leaf callbacks succeed on
every pair of equal type leaves and equal lifetime leaves, zipping any
structural value against itself succeeds, for every zippable shape:
parameter sequences, pairs, parameter-kinds, trait references, application
and projection types, normalize goals, where-clauses, where-clause-goals,
environments, and in-environment values. -/
theorem CRust.zip_reflexivity {σ : Type} (z : CRust.Zipper σ)
    (hty : ∀ s t, CRust.zipOk (z.zip_tys s t t))
    (hlt : ∀ s l, CRust.zipOk (z.zip_lifetimes s l l)) :
    (∀ (s : σ) (v : List CRust.Parameter),
      CRust.zipOk (CRust.listZipWith (CRust.Parameter.zip_with z) s v v)) ∧
    (∀ (s : σ) (v : CRust.Ty × CRust.Lifetime),
      CRust.zipOk (CRust.pairZipWith (CRust.Ty.zip_with z) (CRust.Lifetime.zip_with z) s v v)) ∧
    (∀ (s : σ) (v : CRust.Parameter), CRust.zipOk (CRust.Parameter.zip_with z s v v)) ∧
    (∀ (s : σ) (v : CRust.TraitRef), CRust.zipOk (CRust.TraitRef.zip_with z s v v)) ∧
    (∀ (s : σ) (v : CRust.ApplicationTy), CRust.zipOk (CRust.ApplicationTy.zip_with z s v v)) ∧
    (∀ (s : σ) (v : CRust.ProjectionTy), CRust.zipOk (CRust.ProjectionTy.zip_with z s v v)) ∧
    (∀ (s : σ) (v : CRust.Normalize), CRust.zipOk (CRust.Normalize.zip_with z s v v)) ∧
    (∀ (s : σ) (v : CRust.WhereClause), CRust.zipOk (CRust.WhereClause.zip_with z s v v)) ∧
    (∀ (s : σ) (v : CRust.WhereClauseGoal),
      CRust.zipOk (CRust.WhereClauseGoal.zip_with z s v v)) ∧
    (∀ (s : σ) (v : CRust.Environment), CRust.zipOk (CRust.Environment.zip_with z s v v)) ∧
    (∀ (s : σ) (v : CRust.InEnvironment CRust.WhereClauseGoal),
      CRust.zipOk (CRust.InEnvironment.zip_with (CRust.WhereClauseGoal.zip_with z) z s v v)) := by
  have hparam : ∀ (s : σ) (v : CRust.Parameter), CRust.zipOk (CRust.Parameter.zip_with z s v v) := by
    intro s v
    cases v with
    | Ty t =>
      simpa [CRust.Parameter.zip_with, CRust.ParameterKind.zip_with, CRust.Ty.zip_with]
        using hty s t
    | Lifetime l =>
      simpa [CRust.Parameter.zip_with, CRust.ParameterKind.zip_with, CRust.Lifetime.zip_with]
        using hlt s l
  have hlist : ∀ (s : σ) (v : List CRust.Parameter),
      CRust.zipOk (CRust.listZipWith (CRust.Parameter.zip_with z) s v v) :=
    CRust.listZipWith_refl _ hparam
  have hpair : ∀ (s : σ) (v : CRust.Ty × CRust.Lifetime),
      CRust.zipOk (CRust.pairZipWith (CRust.Ty.zip_with z) (CRust.Lifetime.zip_with z) s v v) := by
    intro s v
    exact CRust.zipOk_bind_of (by simpa [CRust.Ty.zip_with] using hty s v.1)
      (fun s1 => by simpa [CRust.Lifetime.zip_with] using hlt s1 v.2)
  have htr : ∀ (s : σ) (v : CRust.TraitRef), CRust.zipOk (CRust.TraitRef.zip_with z s v v) := by
    intro s v
    have hid : CRust.ItemId.zip_with s v.trait_id v.trait_id = CRust.ZipOut.ok s := by
      simp [CRust.ItemId.zip_with]
    simpa [CRust.TraitRef.zip_with, hid, CRust.ZipOut.bind] using hlist s v.parameters
  have happ : ∀ (s : σ) (v : CRust.ApplicationTy),
      CRust.zipOk (CRust.ApplicationTy.zip_with z s v v) := by
    intro s v
    have hnm : CRust.TypeName.zip_with s v.name v.name = CRust.ZipOut.ok s := by
      simp [CRust.TypeName.zip_with]
    simpa [CRust.ApplicationTy.zip_with, hnm, CRust.ZipOut.bind] using hlist s v.parameters
  have hproj : ∀ (s : σ) (v : CRust.ProjectionTy),
      CRust.zipOk (CRust.ProjectionTy.zip_with z s v v) := by
    intro s v
    exact CRust.zipOk_bind_of (htr s v.trait_ref)
      (fun s1 => ⟨s1, by simp [CRust.Identifier.zip_with]⟩)
  have hnorm : ∀ (s : σ) (v : CRust.Normalize), CRust.zipOk (CRust.Normalize.zip_with z s v v) := by
    intro s v
    exact CRust.zipOk_bind_of (hproj s v.projection)
      (fun s1 => by simpa [CRust.Ty.zip_with] using hty s1 v.ty)
  have hwc : ∀ (s : σ) (v : CRust.WhereClause), CRust.zipOk (CRust.WhereClause.zip_with z s v v) := by
    intro s v
    cases v with
    | Implemented a => simpa [CRust.WhereClause.zip_with] using htr s a
    | Normalize a => simpa [CRust.WhereClause.zip_with] using hnorm s a
  have hwcg : ∀ (s : σ) (v : CRust.WhereClauseGoal),
      CRust.zipOk (CRust.WhereClauseGoal.zip_with z s v v) := by
    intro s v
    cases v with
    | Implemented a => simpa [CRust.WhereClauseGoal.zip_with] using htr s a
    | Normalize a => simpa [CRust.WhereClauseGoal.zip_with] using hnorm s a
  have henv : ∀ (s : σ) (v : CRust.Environment), CRust.zipOk (CRust.Environment.zip_with z s v v) := by
    intro s v
    simpa [CRust.Environment.zip_with] using
      CRust.listZipWith_refl _ hwc s v.clauses
  have hinenv : ∀ (s : σ) (v : CRust.InEnvironment CRust.WhereClauseGoal),
      CRust.zipOk (CRust.InEnvironment.zip_with (CRust.WhereClauseGoal.zip_with z) z s v v) := by
    intro s v
    exact CRust.zipOk_bind_of (henv s v.environment) (fun s1 => hwcg s1 v.goal)
  exact ⟨hlist, hpair, hparam, htr, happ, hproj, hnorm, hwc, hwcg, henv, hinenv⟩

/-- C9 witness: the trivial zipper succeeds on all equal leaves, and
zipping a concrete trait reference with a type and a lifetime parameter
against itself succeeds. -/
theorem CRust.zip_reflexivity_witness :
    (∀ s t, CRust.zipOk (CRust.zNull.zip_tys s t t)) ∧
    (∀ s l, CRust.zipOk (CRust.zNull.zip_lifetimes s l l)) ∧
    CRust.zipOk (CRust.TraitRef.zip_with CRust.zNull () CRust.trW CRust.trW) :=
  ⟨fun s _ => ⟨s, rfl⟩, fun s _ => ⟨s, rfl⟩,
    (CRust.zip_reflexivity CRust.zNull (fun s _ => ⟨s, rfl⟩) (fun s _ => ⟨s, rfl⟩)).2.2.2.1
      () CRust.trW⟩

/-- C1 witness: the round-trips evaluated at concrete data. -/
theorem ChalkIr.intern_roundtrip_witness :
    ChalkIr.ty_data (ChalkIr.intern_ty (5 : Nat)) = 5 ∧
    ChalkIr.lifetime_data (ChalkIr.intern_lifetime (6 : Nat)) = 6 ∧
    ChalkIr.parameter_data (ChalkIr.intern_parameter (7 : Nat)) = 7 ∧
    ChalkIr.goal_data (ChalkIr.intern_goal (8 : Nat)) = 8 ∧
    ChalkIr.goals_data (ChalkIr.intern_goals [1, 2, 3]) = [1, 2, 3] :=
  ⟨ChalkIr.intern_roundtrip.1 Nat 5, ChalkIr.intern_roundtrip.2.1 Nat 6,
    ChalkIr.intern_roundtrip.2.2.1 Nat 7, ChalkIr.intern_roundtrip.2.2.2.1 Nat 8,
    ChalkIr.intern_roundtrip.2.2.2.2 Nat [1, 2, 3]⟩

/-- C2 witness: under the empty database, the well-formedness of a
concrete trait reference is classified coinductive via the iff. -/
theorem CIr.domain_goal_classification_witness :
    CIr.is_coinductive CIr.dbNull
      (CIr.GoalData.DomainGoal (CIr.DomainGoal.WellFormed
        (CIr.WellFormed.Trait (CIr.TraitRef.mk (CIr.TraitId.mk 0) [])))) = true :=
  (CIr.domain_goal_classification CIr.dbNull
      (CIr.DomainGoal.WellFormed (CIr.WellFormed.Trait (CIr.TraitRef.mk (CIr.TraitId.mk 0) [])))).mpr
    (Or.inr ⟨CIr.TraitRef.mk (CIr.TraitId.mk 0) [], rfl⟩)

/-- C4 witness: wrapping `CannotProve` in a quantifier leaves its
classification unchanged under the empty database. -/
theorem CIr.wrapper_transparency_witness :
    CIr.is_coinductive CIr.dbNull
      (CIr.GoalData.Quantified CIr.QuantifierKind.ForAll [CIr.VariableKind.ty]
        CIr.GoalData.CannotProve) =
      CIr.is_coinductive CIr.dbNull CIr.GoalData.CannotProve :=
  (CIr.wrapper_transparency CIr.dbNull).1 CIr.QuantifierKind.ForAll [CIr.VariableKind.ty]
    CIr.GoalData.CannotProve

/-- C6 witness: a concrete "Implemented" where-clause zipped against a
concrete "Normalize" one fails with the shape-mismatch diagnostic carrying
both values. -/
theorem CRust.tag_sensitivity_witness :
    CRust.WhereClause.zip_with CRust.zNull ()
        (CRust.WhereClause.Implemented CRust.trW)
        (CRust.WhereClause.Normalize (CRust.Normalize.mk
          (CRust.ProjectionTy.mk CRust.trW (CRust.Identifier.mk 3)) (CRust.Ty.mk 4))) =
      CRust.ZipOut.err (CRust.ZipError.whereClauseMismatch
        (CRust.WhereClause.Implemented CRust.trW)
        (CRust.WhereClause.Normalize (CRust.Normalize.mk
          (CRust.ProjectionTy.mk CRust.trW (CRust.Identifier.mk 3)) (CRust.Ty.mk 4)))) :=
  (CRust.tag_sensitivity CRust.zNull ()).1 CRust.trW
    (CRust.Normalize.mk (CRust.ProjectionTy.mk CRust.trW (CRust.Identifier.mk 3)) (CRust.Ty.mk 4))

/-- C8 witness: an all-`Ok` iterator collects to `Ok` of the parameters in
order, and an iterator with an error returns the first error, items after
it contributing nothing. -/
theorem ChalkIr.intern_substitution_spec_witness :
    ChalkIr.intern_substitution [Except.ok 1, Except.ok 2] =
      (Except.ok [1, 2] : Except String (List Nat)) ∧
    ChalkIr.intern_substitution
        [Except.ok 1, Except.error "bad arity", Except.ok 2] =
      (Except.error "bad arity" : Except String (List Nat)) :=
  ⟨ChalkIr.intern_substitution_spec.1 [1, 2],
    ChalkIr.intern_substitution_spec.2 [1] "bad arity" [Except.ok 2]⟩
